import Mathlib

/-!
# KarereBackend — shallow embedding and verification

A shallow embedding of the history-reconciliation and persistence core of the
KarereBackend repository (`src/backend.js`, `src/database.js`), together with
proofs and refutations of the specification claims.

Conventions of the embedding:
* JavaScript numbers that hold timestamps are modelled as `Int`
  (epoch milliseconds / seconds); `NaN` is modelled as `none` of `Option Int`.
* JavaScript `null`/`undefined` string fields are `Option String`; JS
  truthiness of a string is `≠ ""`, of a number is `≠ 0`.
* The SQLite tables are association lists keyed by their primary-key column.
  `INSERT OR REPLACE` deletes a conflicting row before inserting, which with
  `PRAGMA foreign_keys = ON` (set in `Database.initialize`) fires
  `ON DELETE CASCADE` on `messages.chat_jid`, and fills every column that the
  statement does not mention with its schema default.
* Database-engine failures that the code catches per message / per chat are
  modelled by a fault environment `Env`; `noFaults` is the failure-free run.
-/

set_option linter.unusedVariables false

namespace Karere

/-! ## Raw upstream message shapes (`backend.js` helpers) -/

/-- The heterogeneous `messageTimestamp` value: an epoch-seconds number, a
numeric string, or a protobuf `Long` with `low`/`high` words. -/
inductive JTs where
  | num (n : Int)
  | str (s : String)
  | long (low high : Int)
deriving DecidableEq, Repr

/-- A WhatsApp message key object (`msg.key`). -/
structure MsgKey where
  id : Option String
  fromMe : Bool
  remoteJid : Option String
deriving DecidableEq, Repr

/-- The recognized content alternatives of a message-content object; one
constructor per content key inspected by `getDisplayMessage` /
`getMessageType` (`other` stands for an object with none of the recognized
keys). -/
inductive Body where
  | conversation (s : String)
  | extendedText (text : Option String)
  | image (caption : Option String)
  | video (caption : Option String)
  | audio
  | document (title : Option String)
  | sticker
  | location
  | contact
  | other
deriving DecidableEq, Repr

/-- A "history" wrapper object (`msg.message` when it itself carries a
`.message`, a `.key` or a `.messageTimestamp`). -/
structure HistWrap where
  messageTimestamp : Option JTs
  key : Option MsgKey
  inner : Option Body
deriving DecidableEq, Repr

/-- `msg.message`: either a flat content object or a history wrapper
(`backend.js` checks `messageObj && messageObj.message`). -/
inductive MsgField where
  | flat (b : Body)
  | wrapped (w : HistWrap)
deriving DecidableEq, Repr

/-- A raw upstream message object, to the depth the helpers inspect. -/
structure RawMsg where
  key : Option MsgKey
  messageTimestamp : Option JTs
  message : Option MsgField
  pushName : Option String
  notify : Option String
  participant : Option String
deriving DecidableEq, Repr

/-- JS truthiness of an optional string (`undefined`, `null` and `""` are
falsy). -/
def jsTruthyS : Option String → Bool
  | none => false
  | some s => s ≠ ""

/-- `a || b` on optional strings. -/
def jsOrS (a b : Option String) : Option String :=
  if jsTruthyS a then a else b

/-- JS truthiness of an optional number (`undefined`, `null`, `0` and `NaN`
are falsy). -/
def jsTruthyI : Option Int → Bool
  | none => false
  | some n => n ≠ 0

/-- `a || b` on optional numbers. -/
def jsOrI (a b : Option Int) : Option Int :=
  if jsTruthyI a then a else b

/-- JS truthiness of a `messageTimestamp` value (a `Long` object is always
truthy). -/
def jsTruthyTs : Option JTs → Bool
  | none => false
  | some (.num n) => n ≠ 0
  | some (.str s) => s ≠ ""
  | some (.long _ _) => true

/-- `parseInt(s)` for base-10: the longest digit prefix, `none` for `NaN`.
(The sign/whitespace handling of JS `parseInt` is irrelevant to the upstream
timestamp strings, which are plain digit strings.) -/
def jsParseInt (s : String) : Option Int :=
  let rec go : List Char → Option Nat → Option Nat
    | [], acc => acc
    | c :: cs, acc =>
      if c.isDigit then go cs (some ((acc.getD 0) * 10 + (c.toNat - 48)))
      else acc
  (go s.data none).map Int.ofNat

/-- `Number(s)` restricted to the strings this code can meet: `""` converts
to `0`, a digit string to its value, anything else is modelled as `NaN`. -/
def jsNumber (s : String) : Option Int :=
  if s = "" then some 0 else (s.toNat?).map Int.ofNat

/-- `msg.messageTimestamp * 1000` as written in `handleMessagesUpsert` and
`handleGetMessageHistory`: plain JS multiplication, so a `Long` object or a
missing value yields `NaN` (`none`). -/
def jsTsTimes1000 : Option JTs → Option Int
  | none => none
  | some (.num n) => some (n * 1000)
  | some (.str s) => (jsNumber s).map (· * 1000)
  | some (.long _ _) => none

/-- `x >>> 0`: reinterpret as an unsigned 32-bit word. -/
def toUint32 (x : Int) : Int := x % 4294967296

/-- `getMessageTimestamp` (`backend.js:1715`): unwrap the history nesting,
then normalize the three timestamp formats to epoch milliseconds; the
fallbacks return `Date.now()` (the `now` argument); a non-numeric string
gives `NaN` (`none`). -/
def getMessageTimestamp (msg : RawMsg) (now : Int) : Option Int :=
  let ts0 := msg.messageTimestamp
  let ts :=
    match msg.message with
    | some (.wrapped w) => if jsTruthyTs w.messageTimestamp then w.messageTimestamp else ts0
    | _ => ts0
  if ¬ jsTruthyTs ts then some now
  else
    match ts with
    | some (.long low high) => some ((toUint32 high * 4294967296 + toUint32 low) * 1000)
    | some (.num n) => some (n * 1000)
    | some (.str s) => (jsParseInt s).map (· * 1000)
    | none => some now

/-- `getMessageKey` (`backend.js:1750`): the flat key, else the key nested in
a history wrapper. -/
def getMessageKey (msg : RawMsg) : Option MsgKey :=
  match msg.key with
  | some k => some k
  | none =>
    match msg.message with
    | some (.wrapped w) => w.key
    | _ => none

/-- The content object `getMessageType`/`getDisplayMessage` operate on after
unwrapping the history nesting. -/
def unwrapBody (msg : RawMsg) : Option Body :=
  match msg.message with
  | none => none
  | some (.flat b) => some b
  | some (.wrapped w) => w.inner

/-- `getMessageType` (`backend.js:1669`). -/
def getMessageType (msg : RawMsg) : String :=
  match unwrapBody msg with
  | none => "text"
  | some b =>
    match b with
    | .conversation s => if s ≠ "" then "text" else "unknown"
    | .extendedText _ => "text"
    | .image _ => "image"
    | .video _ => "video"
    | .audio => "audio"
    | .document _ => "document"
    | .sticker => "sticker"
    | .location => "location"
    | .contact => "contact"
    | .other => "unknown"

/-- `getDisplayMessage` (`backend.js:139`); `""` plays the JS falsy return
values (`''` and `undefined`). -/
def getDisplayMessage (msg : RawMsg) : String :=
  match unwrapBody msg with
  | none => ""
  | some b =>
    match b with
    | .conversation s => if s ≠ "" then s else "[Unsupported Message]"
    | .extendedText t => t.getD ""
    | .image c => if jsTruthyS c then c.getD "" else "[Image]"
    | .video c => if jsTruthyS c then c.getD "" else "[Video]"
    | .audio => "[Audio]"
    | .document t => if jsTruthyS t then t.getD "" else "[Document]"
    | .sticker => "[Sticker]"
    | .location => "[Location]"
    | .contact => "[Contact]"
    | .other => "[Unsupported Message]"

/-- `formatLastMessageContent` (`backend.js:1767`): full content for text,
`null` for every other type. -/
def formatLastMessageContent (content : Option String) (messageType : String) :
    Option String :=
  if messageType = "text" then jsOrS content (some "No messages yet")
  else none

/-! ## The SQLite store (`database.js`)

Tables as association lists keyed by primary key.  The `media` and
`settings` tables and the never-populated `reply_to_id` column are not
claim-relevant and are omitted. -/

/-- A `chats` row (schema `database.js:57` plus the migration columns). -/
structure ChatRow where
  name : Option String
  avatarBase64 : Option String
  lastMessageId : Option String
  lastMessageTimestamp : Option Int
  lastMessageType : String
  lastMessageFrom : Option String
  unreadCount : Int
  isArchived : Bool
  historyBaselineTimestamp : Option Int
  lastSyncTimestamp : Option Int
  historyComplete : Bool
deriving DecidableEq, Repr

/-- A `messages` row (schema `database.js:72`); the primary key is the
message `id` ALONE, which is the association-list key. -/
structure MessageRow where
  chatJid : String
  fromMe : Bool
  messageType : String
  content : String
  timestamp : Int
  status : String
  collectionSession : Option String
deriving DecidableEq, Repr

/-- A `contacts` row (schema `database.js:99`). -/
structure ContactRow where
  name : Option String
  phoneNumber : Option String
  avatarBase64 : Option String
  isBlocked : Bool
deriving DecidableEq, Repr

/-- Association-list lookup by key (the first row whose key column
matches). -/
def getA {α : Type} : List (String × α) → String → Option α
  | [], _ => none
  | p :: rest, k => if p.1 = k then some p.2 else getA rest k

/-- Remove every entry with the given key. -/
def eraseA {α : Type} (l : List (String × α)) (k : String) : List (String × α) :=
  l.filter (fun p => p.1 != k)

/-- `INSERT OR REPLACE` at key `k`: delete any conflicting row, insert the
new one. -/
def putA {α : Type} (l : List (String × α)) (k : String) (v : α) :
    List (String × α) :=
  (k, v) :: eraseA l k

/-- `UPDATE ... WHERE key = k`: rewrite the row when it exists. -/
def updateA {α : Type} (l : List (String × α)) (k : String) (f : α → α) :
    List (String × α) :=
  l.map (fun p => if p.1 == k then (p.1, f p.2) else p)

/-- The durable store. -/
structure DB where
  chats : List (String × ChatRow)
  messages : List (String × MessageRow)
  contacts : List (String × ContactRow)
deriving DecidableEq, Repr

def DB.empty : DB := ⟨[], [], []⟩

/-- Injected-fault environment for the database engine and the external
session socket; `msgFault` makes `database.saveMessage` reject for a given
message id, `chatFault` makes `database.getChatHistoryInfo` reject for a
given chat jid (both are caught by the code under verification);
`sendResult` is the message id returned by the external `sock.sendMessage`
(`none` models a rejected send). -/
structure Env where
  msgFault : String → Bool
  chatFault : String → Bool
  sendResult : Option String

def noFaults : Env := ⟨fun _ => false, fun _ => false, some "wamid.sent"⟩

/-- `database.saveChat` (`database.js:252`): `INSERT OR REPLACE INTO chats`.
With `PRAGMA foreign_keys = ON`, replacing an existing row first DELETES it,
which cascades over `messages.chat_jid` (`ON DELETE CASCADE`) and deletes
every message of the chat; all columns the statement does not mention
(`unread_count`, `is_archived`, `history_baseline_timestamp`,
`last_sync_timestamp`, `history_complete`) come back as their schema
defaults. -/
def DB.saveChat (db : DB) (jid : String) (name : Option String := none)
    (lastMessageId : Option String := none) (timestamp : Option Int := none)
    (avatarBase64 : Option String := none) (lastMessageType : String := "text")
    (lastMessageFrom : Option String := none) : DB :=
  let existed := (getA db.chats jid).isSome
  let row : ChatRow :=
    { name := name
      avatarBase64 := avatarBase64
      lastMessageId := lastMessageId
      lastMessageTimestamp := timestamp
      lastMessageType := lastMessageType
      lastMessageFrom := lastMessageFrom
      unreadCount := 0
      isArchived := false
      historyBaselineTimestamp := none
      lastSyncTimestamp := none
      historyComplete := false }
  { db with
    chats := putA db.chats jid row
    messages :=
      if existed then db.messages.filter (fun p => p.2.chatJid != jid)
      else db.messages }

/-- `database.setChatHistoryBaseline` (`database.js:357`): `UPDATE chats SET
history_baseline_timestamp = ? WHERE jid = ?` (a `NaN` bind stores NULL). -/
def DB.setChatHistoryBaseline (db : DB) (jid : String) (ts : Option Int) : DB :=
  { db with chats := updateA db.chats jid (fun r => { r with historyBaselineTimestamp := ts }) }

/-- `database.updateChatSyncTimestamp` (`database.js:381`). -/
def DB.updateChatSyncTimestamp (db : DB) (jid : String) (ts : Option Int) : DB :=
  { db with chats := updateA db.chats jid (fun r => { r with lastSyncTimestamp := ts }) }

/-- `database.getChatHistoryInfo` (`database.js:405`): the row's cursor
columns, `undefined` when the chat is unknown. -/
def DB.getChatHistoryInfo (db : DB) (jid : String) : Option ChatRow :=
  getA db.chats jid

/-- `database.saveContact` (`database.js:705`): `INSERT OR REPLACE INTO
contacts` — note that an omitted phone number or avatar is REPLACED by NULL. -/
def DB.saveContact (db : DB) (jid : String) (name : String)
    (phoneNumber : Option String := none) (avatarBase64 : Option String := none) : DB :=
  { db with
    contacts := putA db.contacts jid
      { name := some name, phoneNumber := phoneNumber
        avatarBase64 := avatarBase64, isBlocked := false } }

/-- `database.getContact` (`database.js:725`). -/
def DB.getContact (db : DB) (jid : String) : Option ContactRow :=
  getA db.contacts jid

/-- `database.saveMessage` (`database.js:450`): `INSERT OR REPLACE INTO
messages` keyed by `id` alone, then an incoming sender name is upserted into
`contacts`, then the chat's last-message summary columns are rewritten by an
`UPDATE ... WHERE jid = ?`.  The result is `none` when the statement errors:
an injected engine fault, a `NaN` timestamp (bound as NULL against the
`NOT NULL` column), or a `chat_jid` that violates the foreign key because no
such chat row exists.  A failed statement is thrown before any mutation. -/
def DB.saveMessage (env : Env) (db : DB) (id : String) (chatJid : String)
    (fromMe : Bool) (content : String) (timestamp : Option Int)
    (messageType : String := "text") (status : String := "sent")
    (senderName : Option String := none)
    (collectionSession : Option String := none) : Option DB :=
  if env.msgFault id then none
  else if (getA db.chats chatJid).isNone then none
  else
    match timestamp with
    | none => none
    | some ts =>
      let row : MessageRow :=
        ⟨chatJid, fromMe, messageType, content, ts, status, collectionSession⟩
      let db1 : DB := { db with messages := putA db.messages id row }
      let db2 : DB :=
        match fromMe, senderName with
        | false, some n => db1.saveContact chatJid n
        | _, _ => db1
      let lastMessageFrom := if fromMe then "me" else chatJid
      let db3 : DB :=
        { db2 with chats := updateA db2.chats chatJid (fun r =>
            { r with
              lastMessageId := some id
              lastMessageTimestamp := some ts
              lastMessageType := messageType
              lastMessageFrom := some lastMessageFrom
              name :=
                match fromMe, senderName with
                | false, some n => some n
                | _, _ => r.name }) }
      some db3

/-- `database.cleanup` (`database.js:892`): delete messages older than the
fixed six-month horizon. -/
def DB.cleanup (db : DB) (now : Int) : DB :=
  let sixMonthsAgo := now - 15552000000
  { db with messages := db.messages.filter (fun p => ¬ (p.2.timestamp < sixMonthsAgo)) }

/-! ## The History Reconciler (`backend.js:771` `handleHistorySet`) -/

/-- One conversation of a bulk-history delivery (`item.chats[i]`). -/
structure HChat where
  id : String
  name : Option String
  unreadCount : Option Int
  messages : List RawMsg
deriving DecidableEq, Repr

/-- A bulk-history delivery (`messaging-history.set` payload). -/
structure HistoryItem where
  chats : List HChat
  isLatest : Bool
deriving DecidableEq, Repr

/-- A conversation-list entry of the frontend payload
(`backend.js:813` `chatData`). -/
structure ChatData where
  jid : String
  name : String
  lastMessage : Option String
  timestamp : Option Int
  lastMessageType : String
  lastMessageFrom : Option String
  unreadCount : Int
  avatarBase64 : Option String
  chatAvatarBase64 : Option String
  phoneNumber : Option String
deriving DecidableEq, Repr

/-- Payload of an outward envelope; `opaqueData` stands for payloads built
from subsystems outside this embedding (health data, sync counters, ...)
that no claim inspects. -/
inductive EnvData where
  | errorData (etype message : String)
  | chats (payload : List ChatData)
  | newMsg (id content : String) (timestamp : Option Int) (mtype from_ : String)
      (fromMe : Bool) (chatJid : String)
      (contactName avatarBase64 senderName : Option String)
  | opaqueData (tag : String)
deriving DecidableEq, Repr

/-- An outward `{ type, data }` envelope (`sendToFrontend`). -/
structure Envelope where
  etype : String
  data : EnvData
deriving DecidableEq, Repr

/-- The truthy message id used by `saveMessagesFromHistory`
(`messageKey?.id`). -/
def msgId (m : RawMsg) : Option String :=
  match getMessageKey m with
  | some k => if jsTruthyS k.id then k.id else none
  | none => none

/-- `msgTimestamp > lastSyncTime` with JS comparison semantics: any
comparison against `NaN`/`undefined` is false. -/
def tsGt (ts bound : Option Int) : Bool :=
  match ts, bound with
  | some t, some b => decide (t > b)
  | _, _ => false

/-- `saveMessagesFromHistory` (`backend.js:927`): save each message of the
chat under the given collection session; a message without a truthy key id
is skipped, a `database.saveMessage` failure is caught, counted and
skipped.  Returns (savedCount, skippedCount, store). -/
def saveMessagesFromHistory (env : Env) (db : DB) (chatId : String)
    (chatName : Option String) (msgs : List RawMsg) (session : String)
    (now : Int) : Nat × Nat × DB :=
  match msgs with
  | [] => (0, 0, db)
  | msg :: rest =>
    let messageContent := getDisplayMessage msg
    let messageType := getMessageType msg
    let timestamp := getMessageTimestamp msg now
    match msgId msg with
    | some id =>
      let fromMe := (getMessageKey msg).elim false (·.fromMe)
      let content := if messageContent ≠ "" then messageContent
        else "[Message content unavailable]"
      let sender := jsOrS msg.pushName (jsOrS msg.participant
        (jsOrS chatName (some "Unknown")))
      match DB.saveMessage env db id chatId fromMe content timestamp
          messageType (if fromMe then "sent" else "received") sender
          (some session) with
      | some db' =>
        let r := saveMessagesFromHistory env db' chatId chatName rest session now
        (r.1 + 1, r.2.1, r.2.2)
      | none =>
        let r := saveMessagesFromHistory env db chatId chatName rest session now
        (r.1, r.2.1 + 1, r.2.2)
    | none =>
      let r := saveMessagesFromHistory env db chatId chatName rest session now
      (r.1, r.2.1 + 1, r.2.2)

/-- The new-vs-known classification of `handleHistorySet`
(`backend.js:805`): a chat is NEW when it has no row or a falsy
(`NULL` or `0`) `history_baseline_timestamp`. -/
def isNewChatPred (db : DB) (jid : String) : Bool :=
  match DB.getChatHistoryInfo db jid with
  | none => true
  | some r => ¬ jsTruthyI r.historyBaselineTimestamp

/-- The NEW-CHAT branch of `handleHistorySet` (`backend.js:844`-`862`): set
the baseline cursor to the timestamp of the LAST message of the delivered
array (`chat.messages[chat.messages.length - 1]`, the oldest under the
upstream's newest-first ordering), then save every delivered message under an
initial-sync session; a chat delivered with zero messages gets no baseline. -/
def newChatBranch (env : Env) (db : DB) (chat : HChat) (now : Int) : DB :=
  match chat.messages.getLast? with
  | some oldest =>
    let baselineTimestamp := getMessageTimestamp oldest now
    let db := db.setChatHistoryBaseline chat.id baselineTimestamp
    (saveMessagesFromHistory env db chat.id chat.name chat.messages
      ("initial-sync-" ++ toString now) now).2.2
  | none => db

/-- The EXISTING-CHAT branch of `handleHistorySet` (`backend.js:863`-`887`):
keep only the delivered messages whose timestamp is strictly greater than
`last_sync_timestamp || history_baseline_timestamp` and save them under the
progressive-sync session. -/
def knownChatBranch (env : Env) (db : DB) (chat : HChat) (info : ChatRow)
    (now : Int) : DB :=
  let lastSyncTime := jsOrI info.lastSyncTimestamp info.historyBaselineTimestamp
  let newMessages := chat.messages.filter
    (fun m => tsGt (getMessageTimestamp m now) lastSyncTime)
  if newMessages ≠ [] then
    (saveMessagesFromHistory env db chat.id chat.name newMessages
      ("progressive-sync-" ++ toString now) now).2.2
  else db

/-- The per-chat body of `handleHistorySet`'s loop (`backend.js:801`-`894`),
i.e. the contents of the per-chat `try`.  A thrown exception is caught by
the chat-level `catch` and yields `(db unchanged so far, none)`; the two
modelled throw sites are an injected `getChatHistoryInfo` fault and the
unguarded `lastMessage.key.fromMe` access (`backend.js:810`), both of which
occur before any store write or payload push. -/
def processHistoryChat (env : Env) (db : DB) (chat : HChat) (now : Int) :
    DB × Option ChatData :=
  if env.chatFault chat.id then (db, none)
  else
    let historyInfo := db.getChatHistoryInfo chat.id
    let isNewChat : Bool := isNewChatPred db chat.id
    let summary? :
        Option (String × Option String × Option String × Option Int × Option String) :=
      match chat.messages.head? with
      | none => some ("text", none, none, some now, none)
      | some lm =>
        match lm.key with
        | none => none
        | some k =>
          some (getMessageType lm, some (getDisplayMessage lm),
                some (if k.fromMe then "me" else chat.id),
                getMessageTimestamp lm now, k.id)
    match summary? with
    | none => (db, none)
    | some (lmType, lmContent, lmFrom, lmTs, lmKeyId) =>
      let nameVal := (jsOrS chat.name (some chat.id)).getD chat.id
      let chatData : ChatData :=
        { jid := chat.id, name := nameVal
          lastMessage := formatLastMessageContent lmContent lmType
          timestamp := lmTs, lastMessageType := lmType, lastMessageFrom := lmFrom
          unreadCount := chat.unreadCount.getD 0
          avatarBase64 := none, chatAvatarBase64 := none, phoneNumber := none }
      let db := db.saveChat chat.id (some nameVal) lmKeyId lmTs none lmType lmFrom
      let db :=
        match chat.name with
        | some s => if s ≠ "" ∧ s ≠ chat.id then db.saveContact chat.id s else db
        | none => db
      let db :=
        if isNewChat then newChatBranch env db chat now
        else
          match historyInfo with
          | some info => knownChatBranch env db chat info now
          | none => db
      let db := db.updateChatSyncTimestamp chat.id (some now)
      (db, some chatData)

/-- The `for (const chat of item.chats)` loop of `handleHistorySet`. -/
def runHistoryChats (env : Env) (db : DB) (chats : List HChat) (now : Int) :
    DB × List ChatData :=
  match chats with
  | [] => (db, [])
  | c :: rest =>
    let r1 := processHistoryChat env db c now
    let r2 := runHistoryChats env r1.1 rest now
    (r2.1, r1.2.toList ++ r2.2)

/-- Result of one `handleHistorySet` invocation: the store, the cached
`initialChatsPayload`, the envelopes sent, and the updated
`clientIsWaitingForChats` flag. -/
structure HistResult where
  db : DB
  payload : List ChatData
  sent : List Envelope
  waiting : Bool
deriving DecidableEq, Repr

/-- `handleHistorySet` (`backend.js:771`): process every chat of the
delivery, cache the combined payload, and flush it to a waiting (and
connected) consumer.  `now` is `Date.now()` (`currentTime`), `waiting` is
`clientIsWaitingForChats`, `clientOpen` is whether the consumer socket is
open. -/
def handleHistorySet (env : Env) (db : DB) (item : HistoryItem) (now : Int)
    (waiting : Bool := false) (clientOpen : Bool := true) : HistResult :=
  let r := runHistoryChats env db item.chats now
  let sent :=
    if waiting ∧ clientOpen then [⟨"initial_chats", .chats r.2⟩] else []
  ⟨r.1, r.2, sent, false⟩

/-! ## The Live Event Processor (`backend.js:986` `handleMessagesUpsert`) -/

/-- A `messages.upsert` event. -/
structure UpsertEvent where
  messages : List RawMsg
  mtype : String
deriving DecidableEq, Repr

/-- `handleMessagesUpsert` (`backend.js:986`): for a `notify` event whose
first message is inbound and has displayable content, persist it with the
hardcoded kind `"text"`, the raw `messageTimestamp * 1000` value and the
`"real-time"` session, then emit a `newMessage` envelope whose avatar comes
from a `contacts` lookup made after the save.  Every throw inside the
handler (missing `msg.key`, a failing `database.saveMessage`, ...) is caught
by its `catch` and yields no store change and no envelope.  (A message whose
key lacks an `id` would store a NULL-id row; such rows are outside this
embedding and the case is mapped to the caught-error result.) -/
def handleMessagesUpsert (env : Env) (db : DB) (m : UpsertEvent)
    (clientOpen : Bool := true) : DB × List Envelope :=
  match m.messages.head? with
  | none => (db, [])
  | some msg =>
    match msg.key with
    | none => (db, [])
    | some k =>
      if ¬ k.fromMe ∧ m.mtype = "notify" then
        let messageContent := getDisplayMessage msg
        if messageContent ≠ "" then
          let contactName := jsOrS msg.pushName msg.notify
          match k.remoteJid, k.id with
          | some jid, some mid =>
            let ts := jsTsTimes1000 msg.messageTimestamp
            match DB.saveMessage env db mid jid false messageContent ts
                "text" "received" contactName (some "real-time") with
            | none => (db, [])
            | some db' =>
              let contact := db'.getContact jid
              let e : Envelope :=
                ⟨"newMessage",
                 .newMsg mid messageContent ts (getMessageType msg)
                   (if k.fromMe then "me" else jid) k.fromMe jid contactName
                   (contact.bind (·.avatarBase64)) contactName⟩
              (db', if clientOpen then [e] else [])
          | _, _ => (db, [])
        else (db, [])
      else (db, [])

/-! ## The consumer command dispatcher (`backend.js:211`
`handleFrontendCommand`) and the handlers it reaches -/

/-- The module-level mutable state the command handlers read and write. -/
structure GState where
  db : DB
  clientOpen : Bool
  waiting : Bool
  payload : Option (List ChatData)
  sockOpen : Bool
deriving Repr

/-- Observable actions of a handler: an outward envelope, a presence update
on the upstream socket, or some other external call. -/
inductive Eff where
  | send (e : Envelope)
  | presence (kind : String) (dest : Option String)
  | extCall (tag : String)
deriving DecidableEq, Repr

/-- `sendToFrontend` (`backend.js:291`): delivered only while the consumer
socket is open, dropped (with a log line) otherwise; never throws. -/
def emit (st : GState) (e : Envelope) : List Eff :=
  if st.clientOpen then [.send e] else []

/-- The `data` object of a consumer command, flattened to the fields the
handlers destructure. -/
structure CmdData where
  to_ : Option String
  message : Option String
  jid : Option String
  limit : Option Nat
  offset : Option Nat
deriving DecidableEq, Repr

/-- A chat row joined with its last message and contact
(`database.getChats`, `database.js:272`). -/
structure JoinedChat where
  jid : String
  row : ChatRow
  lastMessageContent : Option String
  contactName : Option String
  contactAvatarBase64 : Option String
  contactPhoneNumber : Option String
deriving DecidableEq, Repr

/-- Insert into a list sorted by the boolean relation `le`. -/
def insertBy {α : Type} (le : α → α → Bool) (x : α) : List α → List α
  | [] => [x]
  | y :: ys => if le x y then x :: y :: ys else y :: insertBy le x ys

/-- Sort by the boolean relation `le`. -/
def sortBy {α : Type} (le : α → α → Bool) (l : List α) : List α :=
  l.foldr (insertBy le) []

/-- `ORDER BY last_message_timestamp DESC` with SQLite NULLs last. -/
def tsDescLe (a b : Option Int) : Bool :=
  match a, b with
  | some x, some y => decide (y ≤ x)
  | some _, none => true
  | none, some _ => false
  | none, none => true

/-- `database.getChats` (`database.js:272`): unarchived chats joined with
their last message's content and their contact, most recent first. -/
def DB.getChats (db : DB) (limit : Nat := 50) : List JoinedChat :=
  let rows := db.chats.filter (fun p => ¬ p.2.isArchived)
  let sorted := sortBy (fun a b => tsDescLe a.2.lastMessageTimestamp b.2.lastMessageTimestamp) rows
  (sorted.take limit).map (fun p =>
    let contact := getA db.contacts p.1
    { jid := p.1, row := p.2
      lastMessageContent := (p.2.lastMessageId.bind (getA db.messages)).map (·.content)
      contactName := contact.bind (·.name)
      contactAvatarBase64 := contact.bind (·.avatarBase64)
      contactPhoneNumber := contact.bind (·.phoneNumber) })

/-- The chat-list payload mapping shared by `handleGetInitialChats` and
`loadInitialChats` (`backend.js:265`). -/
def joinedToChatData (c : JoinedChat) : ChatData :=
  { jid := c.jid
    name := (jsOrS c.contactName (jsOrS c.row.name (some c.jid))).getD c.jid
    lastMessage := formatLastMessageContent c.lastMessageContent
      (if c.row.lastMessageType ≠ "" then c.row.lastMessageType else "text")
    timestamp := c.row.lastMessageTimestamp
    lastMessageType := if c.row.lastMessageType ≠ "" then c.row.lastMessageType else "text"
    lastMessageFrom := c.row.lastMessageFrom
    unreadCount := c.row.unreadCount
    avatarBase64 := c.contactAvatarBase64
    chatAvatarBase64 := c.row.avatarBase64
    phoneNumber := c.contactPhoneNumber }

/-- `handleGetInitialChats` (`backend.js:256`): cached payload if present,
else the store's chat list, else set the waiting flag. -/
def handleGetInitialChats (st : GState) : GState × List Eff :=
  match st.payload with
  | some p => (st, emit st ⟨"initial_chats", .chats p⟩)
  | none =>
    let dbChats := st.db.getChats
    if dbChats.isEmpty then ({ st with waiting := true }, [])
    else (st, emit st ⟨"initial_chats", .chats (dbChats.map joinedToChatData)⟩)

/-- `handleSendMessage` (`backend.js:305`).  The external
`sock.sendMessage` result comes from `env.sendResult`; every throw falls to
the `catch`, which emits a `message_error` envelope and attempts to record
a `failed_...` message row (itself allowed to fail silently).  Note the
`saveChat` on the success path: it REPLACES the chat row, cascading away the
chat's stored messages. -/
def handleSendMessage (env : Env) (st : GState) (data : CmdData) (now : Int) :
    GState × List Eff :=
  let failSave (db : DB) : DB :=
    match data.to_, data.message with
    | some t, some msgText =>
      (DB.saveMessage env db ("failed_" ++ toString now) t true msgText
        (some now) "text" "failed").getD db
    | _, _ => db
  let errResult (db : DB) (effs : List Eff) : GState × List Eff :=
    ({ st with db := failSave db }, effs ++ emit st ⟨"message_error", .opaqueData "message_error"⟩)
  match data.to_, data.message with
  | some t, some msgText =>
    if t ≠ "" ∧ msgText ≠ "" then
      if st.sockOpen then
        match env.sendResult with
        | none => errResult st.db [.extCall "sendMessage"]
        | some actualId =>
          match DB.saveMessage env st.db actualId t true msgText (some now)
              "text" "sent" with
          | none => errResult st.db [.extCall "sendMessage"]
          | some db1 =>
            let db2 := db1.saveChat t none (some actualId) (some now) none "text" (some "me")
            ({ st with db := db2 },
             [.extCall "sendMessage"] ++ emit st ⟨"message_sent", .opaqueData "message_sent"⟩)
      else errResult st.db []
    else errResult st.db []
  | _, _ => errResult st.db []

/-- A message joined with its sender's contact data
(`database.getMessagesWithSender`, `database.js:521`). -/
structure SenderMessage where
  id : String
  row : MessageRow
  displaySenderName : String
  senderAvatarBase64 : Option String
deriving DecidableEq, Repr

/-- `database.getMessagesWithSender` (`database.js:521`): the chat's
messages, newest first, `LIMIT ? OFFSET ?`, then reversed to chronological
order. -/
def DB.getMessagesWithSender (db : DB) (chatJid : String) (limit : Nat := 50)
    (offset : Nat := 0) : List SenderMessage :=
  let rows := db.messages.filter (fun p => p.2.chatJid == chatJid)
  let sorted := sortBy (fun a b => tsDescLe (some a.2.timestamp) (some b.2.timestamp)) rows
  let page := (sorted.drop offset).take limit
  (page.map (fun p =>
    let contact := getA db.contacts p.2.chatJid
    { id := p.1, row := p.2
      displaySenderName :=
        if p.2.fromMe then "You" else (contact.bind (·.name)).getD p.2.chatJid
      senderAvatarBase64 := contact.bind (·.avatarBase64) })).reverse

/-- `handleGetMessageHistory` (`backend.js:375`): answer from the store; the
Baileys backfill branch taken when the store is empty and the upstream
session is open performs an external fetch, represented here by an
external-call marker (no claim exercises that branch).  The envelope payload
(the processed message list) is not inspected by any claim and is kept
opaque. -/
def handleGetMessageHistory (st : GState) (data : CmdData) : GState × List Eff :=
  let limit := data.limit.getD 50
  let offset := data.offset.getD 0
  let messages :=
    match data.jid with
    | some j => st.db.getMessagesWithSender j limit offset
    | none => []
  if messages.isEmpty ∧ st.sockOpen then
    (st, [.extCall "fetchMessageHistory"] ++
      emit st ⟨"message_history", .opaqueData "message_history"⟩)
  else
    (st, emit st ⟨"message_history", .opaqueData "message_history"⟩)

/-- `handleTypingStart` (`backend.js:441`). -/
def handleTypingStart (st : GState) (data : CmdData) : GState × List Eff :=
  if st.sockOpen then (st, [.presence "composing" data.to_]) else (st, [])

/-- `handleTypingStop` (`backend.js:454`). -/
def handleTypingStop (st : GState) (data : CmdData) : GState × List Eff :=
  if st.sockOpen then (st, [.presence "paused" data.to_]) else (st, [])

/-- `handleHealthCheck` (`backend.js:467`); the health payload comes from
the service manager, outside this embedding. -/
def handleHealthCheck (st : GState) : GState × List Eff :=
  (st, emit st ⟨"health_status", .opaqueData "health"⟩)

/-- `handleSyncContacts` (`backend.js:489`): without an open upstream
session the thrown error becomes a `sync_contacts_error` envelope; otherwise
a started envelope, one progress envelope per chat (the loop body never
increments its counters, so the `% 10` test is always true), and a completed
envelope. -/
def handleSyncContacts (st : GState) : GState × List Eff :=
  if ¬ st.sockOpen then
    (st, emit st ⟨"sync_contacts_error", .opaqueData "sync_contacts_error"⟩)
  else
    let chats := st.db.getChats 200
    (st, emit st ⟨"sync_contacts_started", .opaqueData "started"⟩ ++
      chats.flatMap (fun _ => emit st ⟨"sync_contacts_progress", .opaqueData "progress"⟩) ++
      emit st ⟨"sync_contacts_completed", .opaqueData "completed"⟩)

/-- `handleGetContactInfo` (`backend.js:552`); the contact-info payload
fields are not inspected by any claim and are kept opaque. -/
def handleGetContactInfo (st : GState) (data : CmdData) : GState × List Eff :=
  match data.jid with
  | none => (st, emit st ⟨"contact_info_error", .opaqueData "contact_info_error"⟩)
  | some j =>
    if j = "" then (st, emit st ⟨"contact_info_error", .opaqueData "contact_info_error"⟩)
    else (st, emit st ⟨"contact_info", .opaqueData "contact_info"⟩)

/-- `handleFrontendCommand` (`backend.js:211`): the `switch` on the command
type; the `default` branch logs a warning and sends an `error` envelope with
`type: "unknown_command"` naming the command — it touches no other state and
cannot throw. -/
def handleFrontendCommand (env : Env) (st : GState) (ctype : String)
    (data : CmdData) (now : Int) : GState × List Eff :=
  if ctype = "get_initial_chats" then handleGetInitialChats st
  else if ctype = "send_message" then handleSendMessage env st data now
  else if ctype = "get_message_history" then handleGetMessageHistory st data
  else if ctype = "typing_start" then handleTypingStart st data
  else if ctype = "typing_stop" then handleTypingStop st data
  else if ctype = "health_check" then handleHealthCheck st
  else if ctype = "sync_contacts" then handleSyncContacts st
  else if ctype = "get_contact_info" then handleGetContactInfo st data
  else
    (st, emit st ⟨"error", .errorData "unknown_command" ("Unknown command: " ++ ctype)⟩)

/-- The eight recognized command types. -/
def recognizedCommands : List String :=
  ["get_initial_chats", "send_message", "get_message_history", "typing_start",
   "typing_stop", "health_check", "sync_contacts", "get_contact_info"]

/-! ## Characterizations used by the proofs -/

/-- The messages-table row that `saveMessagesFromHistory` writes for one
delivered message, or `none` when the message is skipped (no truthy key id,
or a NaN timestamp failing the NOT NULL bind). -/
def rowOfHistory (chatId : String) (session : String) (now : Int)
    (m : RawMsg) : Option (String × MessageRow) :=
  match msgId m, getMessageTimestamp m now with
  | some i, some t =>
    let fromMe := (getMessageKey m).elim false (·.fromMe)
    let messageContent := getDisplayMessage m
    let content := if messageContent ≠ "" then messageContent
      else "[Message content unavailable]"
    some (i, ⟨chatId, fromMe, getMessageType m, content, t,
      if fromMe then "sent" else "received", some session⟩)
  | _, _ => none

/-- The messages table produced by a fault-free `saveMessagesFromHistory`
run, as a fold of `INSERT OR REPLACE` writes. -/
def histFold (chatId : String) (session : String) (now : Int)
    (acc : List (String × MessageRow)) (msgs : List RawMsg) :
    List (String × MessageRow) :=
  msgs.foldl (fun acc m =>
    match rowOfHistory chatId session now m with
    | some (i, r) => putA acc i r
    | none => acc) acc

/-! ## Concrete fixtures for the scenario claims -/

/-- An inbound text message with id `m1` and epoch-seconds timestamp 100. -/
def fxM1 : RawMsg :=
  { key := some ⟨some "m1", false, some "A"⟩, messageTimestamp := some (.num 100)
    message := some (.flat (.conversation "hello")), pushName := some "Al"
    notify := none, participant := none }

/-- An inbound text message with id `m2` and epoch-seconds timestamp 200. -/
def fxM2 : RawMsg :=
  { key := some ⟨some "m2", false, some "A"⟩, messageTimestamp := some (.num 200)
    message := some (.flat (.conversation "world")), pushName := some "Al"
    notify := none, participant := none }

/-- Conversation `A` delivered newest-first (the upstream recency order). -/
def fxChatDesc : HChat := ⟨"A", some "Alice", some 1, [fxM2, fxM1]⟩

/-- Conversation `A` delivered oldest-first. -/
def fxChatAsc : HChat := ⟨"A", some "Alice", some 1, [fxM1, fxM2]⟩

def fxItemDesc : HistoryItem := ⟨[fxChatDesc], true⟩

def fxItemAsc : HistoryItem := ⟨[fxChatAsc], true⟩

/-- First processing of the delivery, on a fresh store, at wall-clock
time 1000000. -/
def fxRun1 : HistResult := handleHistorySet noFaults DB.empty fxItemDesc 1000000

/-- Identical delivery processed a second time at wall-clock time 2000000. -/
def fxRun2 : HistResult := handleHistorySet noFaults fxRun1.db fxItemDesc 2000000

/-- A prior chat row with both sync cursors set. -/
def fxChatRowA : ChatRow :=
  { name := some "Alice", avatarBase64 := none, lastMessageId := some "x1"
    lastMessageTimestamp := some 500000, lastMessageType := "text"
    lastMessageFrom := some "A", unreadCount := 0, isArchived := false
    historyBaselineTimestamp := some 100000, lastSyncTimestamp := some 400000
    historyComplete := false }

/-- A store holding conversation `A` with one stored message. -/
def fxDb5 : DB :=
  ⟨[("A", fxChatRowA)],
   [("x1", ⟨"A", false, "text", "hi", 500000, "received", none⟩)], []⟩

/-- A store holding two conversations `A` and `B` and no messages. -/
def fxDb4 : DB :=
  ⟨[("A", fxChatRowA), ("B", { fxChatRowA with name := some "Bob" })], [], []⟩

/-- The store after saving message id `s1` for conversation `A`. -/
def fxDb4a : DB :=
  (DB.saveMessage noFaults fxDb4 "s1" "A" false "one" (some 100000)).getD DB.empty

/-- The store after then saving the SAME id `s1` for conversation `B`. -/
def fxDb4b : DB :=
  (DB.saveMessage noFaults fxDb4a "s1" "B" false "two" (some 200000)).getD DB.empty

/-- An inbound live image message (caption `"pic"`) for conversation `B`. -/
def fxImgMsg : RawMsg :=
  { key := some ⟨some "x9", false, some "B"⟩, messageTimestamp := some (.num 500)
    message := some (.flat (.image (some "pic"))), pushName := some "Bea"
    notify := none, participant := none }

/-- The live `messages.upsert` event delivering `fxImgMsg`. -/
def fxUpsert9 : UpsertEvent := ⟨[fxImgMsg], "notify"⟩

/-- A store with a chat row and a contact (with avatar) for `B`. -/
def fxDb9 : DB :=
  ⟨[("B", { fxChatRowA with name := some "Bea" })], [],
   [("B", ⟨some "Bea", some "5511", some "AVATAR64", false⟩)]⟩

/-- A raw message carrying only a `messageTimestamp` value. -/
def fxTsMsg (t : JTs) : RawMsg :=
  { key := none, messageTimestamp := some t, message := none
    pushName := none, notify := none, participant := none }

/-- A fault environment: the engine rejects message id `bad`, and
processing of conversation `C` throws. -/
def fxFaultEnv : Env := ⟨fun i => i == "bad", fun c => c == "C", some "wamid.sent"⟩

/-- A message whose persistence the `fxFaultEnv` engine rejects. -/
def fxBadMsg : RawMsg :=
  { key := some ⟨some "bad", false, some "A"⟩, messageTimestamp := some (.num 150)
    message := some (.flat (.conversation "boom")), pushName := none
    notify := none, participant := none }

/-- A faulting conversation for the chat-level isolation witness. -/
def fxChatC : HChat := ⟨"C", some "Carol", none, [fxM1]⟩

/-- A consumer-connected state over an empty store. -/
def fxState10 : GState :=
  { db := DB.empty, clientOpen := true, waiting := false, payload := none
    sockOpen := false }

/-- An empty command `data` object. -/
def fxCmdData : CmdData := ⟨none, none, none, none, none⟩

/-! ## Association-list lemmas -/

theorem eraseA_cons {α : Type} (p : String × α) (l : List (String × α))
    (k : String) :
    eraseA (p :: l) k = if p.1 = k then eraseA l k else p :: eraseA l k := by
  by_cases h : p.1 = k <;> simp [eraseA, List.filter_cons, h]

theorem getA_eraseA_ne {α : Type} (l : List (String × α)) (k j : String)
    (h : j ≠ k) : getA (eraseA l k) j = getA l j := by
  induction l with
  | nil => rfl
  | cons p rest ih =>
    rw [eraseA_cons]
    by_cases hk : p.1 = k
    · have hkj : ¬ (k = j) := fun he => h he.symm
      simp [hk, getA, hkj, ih]
    · simp only [hk, if_false, getA]
      by_cases hj : p.1 = j <;> simp [hj, ih]

theorem getA_putA_self {α : Type} (l : List (String × α)) (k : String) (v : α) :
    getA (putA l k v) k = some v := by
  simp [getA, putA]

theorem getA_putA_ne {α : Type} (l : List (String × α)) (k j : String) (v : α)
    (h : j ≠ k) : getA (putA l k v) j = getA l j := by
  have hk : k ≠ j := fun he => h he.symm
  simp [getA, putA, hk, getA_eraseA_ne l k j h]

theorem updateA_cons {α : Type} (p : String × α) (l : List (String × α))
    (k : String) (f : α → α) :
    updateA (p :: l) k f =
      (if p.1 = k then (p.1, f p.2) else p) :: updateA l k f := by
  by_cases h : p.1 = k <;> simp [updateA, h]

theorem getA_updateA_self {α : Type} (l : List (String × α)) (k : String)
    (f : α → α) : getA (updateA l k f) k = (getA l k).map f := by
  induction l with
  | nil => rfl
  | cons p rest ih =>
    rw [updateA_cons]
    by_cases hk : p.1 = k <;> simp [hk, getA, ih]

theorem getA_updateA_ne {α : Type} (l : List (String × α)) (k j : String)
    (f : α → α) (h : j ≠ k) : getA (updateA l k f) j = getA l j := by
  induction l with
  | nil => rfl
  | cons p rest ih =>
    rw [updateA_cons]
    by_cases hk : p.1 = k
    · have hkj : ¬ (k = j) := fun he => h he.symm
      simp [hk, getA, hkj, ih]
    · simp only [hk, if_false, getA]
      by_cases hj : p.1 = j <;> simp [hj, ih]

theorem getA_filter_pred {α : Type} (l : List (String × α))
    (p : String × α → Bool) (i : String) (r : α)
    (h : getA (l.filter p) i = some r) : p (i, r) = true := by
  induction l with
  | nil => simp [getA] at h
  | cons q rest ih =>
    rw [List.filter_cons] at h
    by_cases hq : p q = true
    · rw [if_pos hq] at h
      simp only [getA] at h
      by_cases hkey : q.1 = i
      · have : q.2 = r := by simpa [hkey] using h
        have hqir : q = (i, r) := by
          cases q; simp_all
        rwa [hqir] at hq
      · rw [if_neg hkey] at h
        exact ih h
    · rw [if_neg hq] at h
      exact ih h

theorem countP_putA {α : Type} (l : List (String × α)) (k : String) (v : α) :
    (putA l k v).countP (fun p => p.1 == k) = 1 := by
  have h0 : (eraseA l k).countP (fun p => p.1 == k) = 0 := by
    rw [List.countP_eq_zero]
    intro a ha
    have := (List.mem_filter.mp ha).2
    simpa [bne] using this
  simp [putA, List.countP_cons, h0]


/-! ## Scenario theorems -/

/-- **C2** — the claim FAILS on the code: processing the identical
bulk-history delivery a second time does not leave the stored Message rows
unchanged.  After the first run both delivered messages are stored and the
baseline cursor is 100000; the second run's `saveChat` (`INSERT OR
REPLACE INTO chats`) deletes the chat row, which cascades over
`messages.chat_jid` and removes BOTH stored rows, and since both delivered
timestamps are below the last-sync cursor nothing is re-inserted; the
baseline cursor is also reset to NULL, not left unchanged. -/
theorem historySet_not_idempotent :
    (getA fxRun1.db.messages "m1").isSome = true
    ∧ (getA fxRun1.db.messages "m2").isSome = true
    ∧ (getA fxRun1.db.chats "A").map (·.historyBaselineTimestamp)
        = some (some 100000)
    ∧ fxRun2.db.messages = []
    ∧ (getA fxRun2.db.chats "A").map (·.historyBaselineTimestamp) = some none
    ∧ (getA fxRun2.db.chats "A").map (·.lastSyncTimestamp)
        = some (some 2000000) := by
  refine ⟨rfl, rfl, rfl, rfl, rfl, rfl⟩

/-- **C3** — the claim FAILS on the code: a later bulk-history delivery for a
conversation whose baseline cursor is set does NOT leave the baseline equal
to its prior value.  Re-processing the same delivery for conversation `A`
(baseline 100000 after the first run) clears the baseline to NULL, because
the existing-chat path's `saveChat` REPLACES the chat row with one whose
unmentioned `history_baseline_timestamp` column takes its NULL default and
the existing-chat branch never re-sets it; a cursor that was set and is then
cleared has also not "moved forward". -/
theorem historySet_resets_baseline :
    (getA fxRun1.db.chats "A").map (·.historyBaselineTimestamp)
        = some (some 100000)
    ∧ (getA fxRun2.db.chats "A").map (·.historyBaselineTimestamp) = some none
    := ⟨rfl, rfl⟩

/-- **C5** — the claim FAILS on the code: an operation other than the
retention-cleanup sweep removes Message rows.  `database.saveChat` on an
already-stored conversation is an `INSERT OR REPLACE INTO chats`; under
`PRAGMA foreign_keys = ON` the replaced row is deleted first, and
`messages.chat_jid ... ON DELETE CASCADE` silently removes every stored
message of that conversation (here the stored row `x1`). -/
theorem saveChat_removes_message_rows :
    fxDb5.messages ≠ []
    ∧ (fxDb5.saveChat "A" (some "Alice")).messages = [] := by
  exact ⟨by decide, rfl⟩

/-- **C7** — the claim FAILS on the code: after processing a delivery of two
messages (`m2` at 200000 newest-first before `m1` at 100000) for a new
conversation, the stored summary equals the OLDEST delivered message, not
the most recent.  `handleHistorySet` first writes the summary from
`chat.messages[0]` (`m2`), but every subsequent `database.saveMessage`
rewrites the chat's `last_message_*` columns, and the save loop runs in
array order, so the last write is the oldest message `m1`. -/
theorem historySet_summary_is_oldest :
    (getA fxRun1.db.chats "A").map (·.lastMessageId) = some (some "m1")
    ∧ (getA fxRun1.db.chats "A").map (·.lastMessageTimestamp)
        = some (some 100000)
    ∧ getMessageTimestamp fxM2 1000000 = some 200000
    ∧ getMessageTimestamp fxM1 1000000 = some 100000 := by
  refine ⟨rfl, rfl, rfl, rfl⟩

/-! ## `saveMessage` characterization lemmas -/

theorem saveMessage_ts_none (env : Env) (db : DB) (id cj : String) (f : Bool)
    (ct mt st : String) (sn cs : Option String) :
    DB.saveMessage env db id cj f ct none mt st sn cs = none := by
  unfold DB.saveMessage
  split
  · rfl
  · split
    · rfl
    · rfl

/-- Inversion of a successful `saveMessage`: the exact rows it wrote. -/
theorem saveMessage_inv (env : Env) (db : DB) (id cj : String) (f : Bool)
    (ct : String) (ts : Option Int) (mt st : String) (sn cs : Option String)
    (db' : DB)
    (h : DB.saveMessage env db id cj f ct ts mt st sn cs = some db') :
    ∃ t, ts = some t
      ∧ db'.messages = putA db.messages id ⟨cj, f, mt, ct, t, st, cs⟩
      ∧ db'.chats = updateA db.chats cj (fun r =>
          { r with
            lastMessageId := some id
            lastMessageTimestamp := some t
            lastMessageType := mt
            lastMessageFrom := some (if f then "me" else cj)
            name := match f, sn with | false, some n => some n | _, _ => r.name }) := by
  unfold DB.saveMessage at h
  split at h
  · cases h
  · split at h
    · cases h
    · cases ts with
      | none => cases h
      | some t =>
        cases f <;> cases sn <;>
          (simp only [Option.some.injEq] at h; subst h; exact ⟨t, rfl, rfl, rfl⟩)

/-- A `saveMessage` with a real timestamp succeeds whenever the engine does
not fault on the id and the chat row exists (the foreign key holds). -/
theorem saveMessage_some (env : Env) (db : DB) (id cj : String) (f : Bool)
    (ct : String) (t : Int) (mt st : String) (sn cs : Option String)
    (hf : env.msgFault id = false) (hc : (getA db.chats cj).isSome = true) :
    ∃ db', DB.saveMessage env db id cj f ct (some t) mt st sn cs = some db' := by
  have hn : (getA db.chats cj).isNone = false := by
    cases h : getA db.chats cj
    · rw [h] at hc; simp at hc
    · rfl
  unfold DB.saveMessage
  rw [hf, hn]
  simp only [Bool.false_eq_true, if_false]
  exact ⟨_, rfl⟩

theorem saveMessage_chats_isSome (env : Env) (db : DB) (id cj : String)
    (f : Bool) (ct : String) (ts : Option Int) (mt st : String)
    (sn cs : Option String) (db' : DB)
    (h : DB.saveMessage env db id cj f ct ts mt st sn cs = some db')
    (j : String) : (getA db'.chats j).isSome = (getA db.chats j).isSome := by
  obtain ⟨t, -, -, hchats⟩ := saveMessage_inv env db id cj f ct ts mt st sn cs db' h
  rw [hchats]
  by_cases hj : j = cj
  · subst hj
    rw [getA_updateA_self]
    cases getA db.chats j <;> rfl
  · rw [getA_updateA_ne _ _ _ _ hj]

theorem saveMessage_chats_baseline (env : Env) (db : DB) (id cj : String)
    (f : Bool) (ct : String) (ts : Option Int) (mt st : String)
    (sn cs : Option String) (db' : DB)
    (h : DB.saveMessage env db id cj f ct ts mt st sn cs = some db')
    (j : String) :
    (getA db'.chats j).map (·.historyBaselineTimestamp)
      = (getA db.chats j).map (·.historyBaselineTimestamp) := by
  obtain ⟨t, -, -, hchats⟩ := saveMessage_inv env db id cj f ct ts mt st sn cs db' h
  rw [hchats]
  by_cases hj : j = cj
  · subst hj
    rw [getA_updateA_self]
    cases getA db.chats j <;> rfl
  · rw [getA_updateA_ne _ _ _ _ hj]

/-! ## `saveMessagesFromHistory` as a fold of message writes -/

theorem histFold_cons (cid session : String) (now : Int)
    (acc : List (String × MessageRow)) (m : RawMsg) (rest : List RawMsg) :
    histFold cid session now acc (m :: rest)
      = histFold cid session now
          (match rowOfHistory cid session now m with
           | some (i, r) => putA acc i r
           | none => acc) rest := rfl

/-- A fault-free `saveMessagesFromHistory` run writes exactly the
`histFold` of its messages and leaves every chat row's existence and
baseline cursor untouched. -/
theorem sfh_spec (cname : Option String) (session : String) (now : Int) :
    ∀ (msgs : List RawMsg) (db : DB) (cid : String),
    (getA db.chats cid).isSome = true →
    (saveMessagesFromHistory noFaults db cid cname msgs session now).2.2.messages
        = histFold cid session now db.messages msgs
    ∧ ∀ j,
      (getA (saveMessagesFromHistory noFaults db cid cname msgs session now).2.2.chats j).map
          (·.historyBaselineTimestamp)
        = (getA db.chats j).map (·.historyBaselineTimestamp)
      ∧ (getA (saveMessagesFromHistory noFaults db cid cname msgs session now).2.2.chats j).isSome
        = (getA db.chats j).isSome := by
  intro msgs
  induction msgs with
  | nil => exact fun db cid hc => ⟨rfl, fun j => ⟨rfl, rfl⟩⟩
  | cons m rest ih =>
    intro db cid hc
    cases hmi : msgId m with
    | none =>
      have hrow : rowOfHistory cid session now m = none := by
        unfold rowOfHistory; rw [hmi]
      obtain ⟨h1, h2⟩ := ih db cid hc
      refine ⟨?_, ?_⟩
      · simp only [saveMessagesFromHistory, hmi]
        rw [h1, histFold_cons, hrow]
      · intro j
        simpa only [saveMessagesFromHistory, hmi] using h2 j
    | some i =>
      cases hts : getMessageTimestamp m now with
      | none =>
        have hrow : rowOfHistory cid session now m = none := by
          unfold rowOfHistory; rw [hmi, hts]
        obtain ⟨h1, h2⟩ := ih db cid hc
        refine ⟨?_, ?_⟩
        · simp only [saveMessagesFromHistory, hmi, hts, saveMessage_ts_none]
          rw [h1, histFold_cons, hrow]
        · intro j
          simpa only [saveMessagesFromHistory, hmi, hts, saveMessage_ts_none] using h2 j
      | some t =>
        obtain ⟨db', hdb'⟩ := saveMessage_some noFaults db i cid
          ((getMessageKey m).elim false (·.fromMe))
          (if getDisplayMessage m ≠ "" then getDisplayMessage m
            else "[Message content unavailable]")
          t (getMessageType m)
          (if (getMessageKey m).elim false (·.fromMe) then "sent" else "received")
          (jsOrS m.pushName (jsOrS m.participant (jsOrS cname (some "Unknown"))))
          (some session) rfl hc
        have hc' : (getA db'.chats cid).isSome = true := by
          rw [saveMessage_chats_isSome _ _ _ _ _ _ _ _ _ _ _ _ hdb' cid]; exact hc
        obtain ⟨t', hts', hmsgs', -⟩ :=
          saveMessage_inv _ _ _ _ _ _ _ _ _ _ _ _ hdb'
        injection hts' with htt
        subst htt
        have hrow : rowOfHistory cid session now m =
            some (i, ⟨cid, (getMessageKey m).elim false (·.fromMe),
              getMessageType m,
              (if getDisplayMessage m ≠ "" then getDisplayMessage m
                else "[Message content unavailable]"), t,
              (if (getMessageKey m).elim false (·.fromMe) then "sent"
                else "received"), some session⟩) := by
          unfold rowOfHistory; rw [hmi, hts]
        obtain ⟨h1, h2⟩ := ih db' cid hc'
        refine ⟨?_, ?_⟩
        · simp only [saveMessagesFromHistory, hmi, hts, hdb']
          rw [h1, hmsgs', histFold_cons, hrow]
        · intro j
          obtain ⟨h2b, h2s⟩ := h2 j
          constructor
          · simp only [saveMessagesFromHistory, hmi, hts, hdb']
            rw [h2b, saveMessage_chats_baseline _ _ _ _ _ _ _ _ _ _ _ _ hdb' j]
          · simp only [saveMessagesFromHistory, hmi, hts, hdb']
            rw [h2s, saveMessage_chats_isSome _ _ _ _ _ _ _ _ _ _ _ _ hdb' j]

/-! ## Lookup properties of the history fold -/

theorem rowOfHistory_props (cid session : String) (now : Int) (m : RawMsg)
    (i : String) (r : MessageRow)
    (h : rowOfHistory cid session now m = some (i, r)) :
    msgId m = some i ∧ r.chatJid = cid ∧ r.collectionSession = some session := by
  unfold rowOfHistory at h
  cases hmi : msgId m with
  | none => rw [hmi] at h; cases h
  | some i' =>
    rw [hmi] at h
    cases hts : getMessageTimestamp m now with
    | none => rw [hts] at h; cases h
    | some t =>
      rw [hts] at h
      simp only [Option.some.injEq, Prod.mk.injEq] at h
      obtain ⟨hi, hr⟩ := h
      subst hi
      subst hr
      exact ⟨rfl, rfl, rfl⟩

theorem rowOfHistory_some_of (cid session : String) (now : Int) (m : RawMsg)
    (i : String) (t : Int) (hmi : msgId m = some i)
    (hts : getMessageTimestamp m now = some t) :
    ∃ r, rowOfHistory cid session now m = some (i, r) := by
  unfold rowOfHistory
  rw [hmi, hts]
  exact ⟨_, rfl⟩

theorem histFold_pres (cid session : String) (now : Int) :
    ∀ (msgs : List RawMsg) (acc : List (String × MessageRow)) (i : String),
    (∃ r, getA acc i = some r ∧ r.chatJid = cid
      ∧ r.collectionSession = some session) →
    ∃ r, getA (histFold cid session now acc msgs) i = some r
      ∧ r.chatJid = cid ∧ r.collectionSession = some session := by
  intro msgs
  induction msgs with
  | nil => exact fun acc i h => h
  | cons m rest ih =>
    intro acc i h
    rw [histFold_cons]
    cases hr : rowOfHistory cid session now m with
    | none => exact ih acc i h
    | some pr =>
      obtain ⟨j, r0⟩ := pr
      by_cases hij : i = j
      · subst hij
        obtain ⟨-, hcj, hcs⟩ := rowOfHistory_props cid session now m i r0 hr
        exact ih _ i ⟨r0, getA_putA_self _ _ _, hcj, hcs⟩
      · obtain ⟨r, hget, hp1, hp2⟩ := h
        exact ih _ i ⟨r, by rw [getA_putA_ne _ _ _ _ hij]; exact hget, hp1, hp2⟩

theorem histFold_from (cid session : String) (now : Int) :
    ∀ (msgs : List RawMsg) (acc : List (String × MessageRow)) (m : RawMsg)
    (i : String) (r0 : MessageRow),
    m ∈ msgs → rowOfHistory cid session now m = some (i, r0) →
    ∃ r, getA (histFold cid session now acc msgs) i = some r
      ∧ r.chatJid = cid ∧ r.collectionSession = some session := by
  intro msgs
  induction msgs with
  | nil => intro acc m i r0 hm; cases hm
  | cons c rest ih =>
    intro acc m i r0 hm hrow
    rw [histFold_cons]
    rcases List.mem_cons.mp hm with hm1 | hm2
    · subst hm1
      rw [hrow]
      obtain ⟨-, hcj, hcs⟩ := rowOfHistory_props cid session now m i r0 hrow
      exact histFold_pres cid session now rest _ i
        ⟨r0, getA_putA_self _ _ _, hcj, hcs⟩
    · cases hr : rowOfHistory cid session now c with
      | none => exact ih acc m i r0 hm2 hrow
      | some pr =>
        obtain ⟨j, rj⟩ := pr
        exact ih _ m i r0 hm2 hrow

theorem histFold_src (cid session : String) (now : Int) :
    ∀ (msgs : List RawMsg) (acc : List (String × MessageRow)) (i : String)
    (r : MessageRow),
    getA (histFold cid session now acc msgs) i = some r →
    getA acc i = some r
      ∨ ∃ m, m ∈ msgs ∧ rowOfHistory cid session now m = some (i, r) := by
  intro msgs
  induction msgs with
  | nil => intro acc i r h; exact Or.inl h
  | cons c rest ih =>
    intro acc i r h
    rw [histFold_cons] at h
    cases hr : rowOfHistory cid session now c with
    | none =>
      rw [hr] at h
      rcases ih acc i r h with h1 | ⟨m, hm, hrow⟩
      · exact Or.inl h1
      · exact Or.inr ⟨m, List.mem_cons_of_mem _ hm, hrow⟩
    | some pr =>
      obtain ⟨j, rj⟩ := pr
      rw [hr] at h
      rcases ih _ i r h with h1 | ⟨m, hm, hrow⟩
      · by_cases hij : i = j
        · subst hij
          rw [getA_putA_self] at h1
          injection h1 with h1'
          subst h1'
          exact Or.inr ⟨c, List.mem_cons_self _ _, hr⟩
        · rw [getA_putA_ne _ _ _ _ hij] at h1
          exact Or.inl h1
      · exact Or.inr ⟨m, List.mem_cons_of_mem _ hm, hrow⟩

/-! ## Store effects of the per-chat writes -/

theorem saveChat_chats_self (db : DB) (jid : String) (n lmi : Option String)
    (ts : Option Int) (av : Option String) (lmt : String)
    (lmf : Option String) :
    getA (DB.saveChat db jid n lmi ts av lmt lmf).chats jid
      = some ⟨n, av, lmi, ts, lmt, lmf, 0, false, none, none, false⟩ := by
  simp [DB.saveChat, getA_putA_self]

theorem saveChat_messages (db : DB) (jid : String)
    (n lmi : Option String) (ts : Option Int) (av : Option String)
    (lmt : String) (lmf : Option String) :
    (DB.saveChat db jid n lmi ts av lmt lmf).messages
      = if (getA db.chats jid).isSome then
          db.messages.filter (fun p => p.2.chatJid != jid)
        else db.messages := rfl

theorem saveContact_messages (db : DB) (jid name : String)
    (pn av : Option String) :
    (DB.saveContact db jid name pn av).messages = db.messages := rfl

theorem saveContact_chats (db : DB) (jid name : String)
    (pn av : Option String) :
    (DB.saveContact db jid name pn av).chats = db.chats := rfl

theorem setBaseline_messages (db : DB) (jid : String) (ts : Option Int) :
    (DB.setChatHistoryBaseline db jid ts).messages = db.messages := rfl

theorem updateSync_messages (db : DB) (jid : String) (ts : Option Int) :
    (DB.updateChatSyncTimestamp db jid ts).messages = db.messages := rfl

theorem setBaseline_chats_self (db : DB) (jid : String) (ts : Option Int) :
    getA (DB.setChatHistoryBaseline db jid ts).chats jid
      = (getA db.chats jid).map (fun r => { r with historyBaselineTimestamp := ts }) := by
  simp [DB.setChatHistoryBaseline, getA_updateA_self]

theorem updateSync_chats_baseline (db : DB) (jid : String) (ts : Option Int)
    (j : String) :
    (getA (DB.updateChatSyncTimestamp db jid ts).chats j).map
        (·.historyBaselineTimestamp)
      = (getA db.chats j).map (·.historyBaselineTimestamp) := by
  unfold DB.updateChatSyncTimestamp
  by_cases hj : j = jid
  · subst hj
    rw [getA_updateA_self]
    cases getA db.chats j <;> rfl
  · rw [getA_updateA_ne _ _ _ _ hj]

theorem handleHistorySet_single (env : Env) (db : DB) (c : HChat) (fl w ko : Bool)
    (now : Int) :
    (handleHistorySet env db ⟨[c], fl⟩ now w ko).db
      = (processHistoryChat env db c now).1 := rfl

/-- Splitting the per-chat processing: when the chat-level `try` does not
throw, the store goes through the pre-writes (`saveChat`, optional
`saveContact`), then the classification branch, then the sync-cursor
update.  The pre-write store `dbPre` has a freshly REPLACED chat row (NULL
baseline) and, when the chat row already existed, its messages
cascade-deleted. -/
theorem processHistoryChat_split (env : Env) (db : DB) (c : HChat) (now : Int)
    (hcf : env.chatFault c.id = false)
    (hkey : ∀ lm, c.messages.head? = some lm → lm.key.isSome = true) :
    ∃ dbPre : DB,
      (processHistoryChat env db c now).1 =
        DB.updateChatSyncTimestamp
          (if isNewChatPred db c.id then newChatBranch env dbPre c now
           else match DB.getChatHistoryInfo db c.id with
                | some info => knownChatBranch env dbPre c info now
                | none => dbPre)
          c.id (some now)
      ∧ (getA dbPre.chats c.id).map (·.historyBaselineTimestamp) = some none
      ∧ dbPre.messages =
          (if (getA db.chats c.id).isSome then
            db.messages.filter (fun p => p.2.chatJid != c.id)
          else db.messages) := by
  have hred : ∀ dbp : DB,
      (getA dbp.chats c.id).map (·.historyBaselineTimestamp) = some none →
      dbp.messages =
        (if (getA db.chats c.id).isSome then
          db.messages.filter (fun p => p.2.chatJid != c.id)
        else db.messages) →
      ∃ dbPre : DB,
        DB.updateChatSyncTimestamp
          (if isNewChatPred db c.id then newChatBranch env dbp c now
           else match DB.getChatHistoryInfo db c.id with
                | some info => knownChatBranch env dbp c info now
                | none => dbp)
          c.id (some now) =
        DB.updateChatSyncTimestamp
          (if isNewChatPred db c.id then newChatBranch env dbPre c now
           else match DB.getChatHistoryInfo db c.id with
                | some info => knownChatBranch env dbPre c info now
                | none => dbPre)
          c.id (some now)
      ∧ (getA dbPre.chats c.id).map (·.historyBaselineTimestamp) = some none
      ∧ dbPre.messages =
          (if (getA db.chats c.id).isSome then
            db.messages.filter (fun p => p.2.chatJid != c.id)
          else db.messages) :=
    fun dbp h1 h2 => ⟨dbp, rfl, h1, h2⟩
  have hcontact : ∀ dbs : DB,
      (match c.name with
        | some s => if s ≠ "" ∧ s ≠ c.id then dbs.saveContact c.id s else dbs
        | none => dbs).chats = dbs.chats ∧
      (match c.name with
        | some s => if s ≠ "" ∧ s ≠ c.id then dbs.saveContact c.id s else dbs
        | none => dbs).messages = dbs.messages := by
    intro dbs
    cases c.name with
    | none => exact ⟨rfl, rfl⟩
    | some s =>
      by_cases hs : s ≠ "" ∧ s ≠ c.id
      · simp [hs, saveContact_chats, saveContact_messages]
      · simp [hs]
  cases hh : c.messages.head? with
  | none =>
    simp only [processHistoryChat, hcf, Bool.false_eq_true, if_false, hh]
    apply hred
    · rw [(hcontact _).1, saveChat_chats_self]
      rfl
    · rw [(hcontact _).2, saveChat_messages]
  | some lm =>
    have hks := hkey lm hh
    cases hk : lm.key with
    | none => rw [hk] at hks; cases hks
    | some kk =>
      simp only [processHistoryChat, hcf, Bool.false_eq_true, if_false, hh, hk]
      apply hred
      · rw [(hcontact _).1, saveChat_chats_self]
        rfl
      · rw [(hcontact _).2, saveChat_messages]

/-- **C1** (amended) — new-vs-known classification of a bulk-history
delivery, for a delivery carrying one conversation `c` whose messages all
have flat keys, truthy ids and well-formed timestamps.
NEW (no prior baseline): the baseline cursor is set to the normalized
timestamp of the LAST message of the delivered array (the oldest under the
upstream's newest-first ordering — the code takes
`chat.messages[chat.messages.length - 1]`, not the minimum), and every
delivered message is persisted for `c` under the initial-sync session.
KNOWN (truthy prior baseline): after processing, a message row for
conversation `c` exists under id `i` exactly when some delivered message
has id `i` and timestamp strictly greater than
`last_sync_timestamp || history_baseline_timestamp`. -/
theorem historySet_classification (db : DB) (c : HChat) (fl w ko : Bool)
    (now : Int)
    (hflat : ∀ m ∈ c.messages, m.key.isSome = true)
    (hid : ∀ m ∈ c.messages, (msgId m).isSome = true)
    (hts : ∀ m ∈ c.messages, (getMessageTimestamp m now).isSome = true) :
    (isNewChatPred db c.id = true →
      (∀ m ∈ c.messages, ∀ i, msgId m = some i →
        ∃ row, getA (handleHistorySet noFaults db ⟨[c], fl⟩ now w ko).db.messages i
            = some row ∧ row.chatJid = c.id
          ∧ row.collectionSession = some ("initial-sync-" ++ toString now))
      ∧ ∀ o, c.messages.getLast? = some o →
          (getA (handleHistorySet noFaults db ⟨[c], fl⟩ now w ko).db.chats c.id).map
              (·.historyBaselineTimestamp) = some (getMessageTimestamp o now))
    ∧ ∀ infoRow, DB.getChatHistoryInfo db c.id = some infoRow →
        jsTruthyI infoRow.historyBaselineTimestamp = true →
        ∀ i,
          ((∃ row,
              getA (handleHistorySet noFaults db ⟨[c], fl⟩ now w ko).db.messages i
                = some row ∧ row.chatJid = c.id)
            ↔ ∃ m, m ∈ c.messages ∧ msgId m = some i
                ∧ tsGt (getMessageTimestamp m now)
                    (jsOrI infoRow.lastSyncTimestamp
                      infoRow.historyBaselineTimestamp) = true) := by
  have hkey : ∀ lm, c.messages.head? = some lm → lm.key.isSome = true := by
    intro lm hlm
    exact hflat lm (List.mem_of_mem_head? (by rw [hlm]; rfl))
  obtain ⟨dbPre, hfinal, hpreBase, hpreMsgs⟩ :=
    processHistoryChat_split noFaults db c now rfl hkey
  have hPreSome : (getA dbPre.chats c.id).isSome = true := by
    cases hg : getA dbPre.chats c.id
    · rw [hg] at hpreBase; cases hpreBase
    · rfl
  rw [handleHistorySet_single, hfinal]
  constructor
  · -- NEW conversation
    intro hnew
    rw [if_pos hnew]
    constructor
    · intro m hm i hmi
      rw [updateSync_messages]
      have hne : c.messages ≠ [] := by
        intro he; rw [he] at hm; cases hm
      cases hg : c.messages.getLast? with
      | none => exact absurd (List.getLast?_eq_none_iff.mp hg) hne
      | some oldest =>
        unfold newChatBranch
        rw [hg]
        have hcSet : (getA (DB.setChatHistoryBaseline dbPre c.id
            (getMessageTimestamp oldest now)).chats c.id).isSome = true := by
          rw [setBaseline_chats_self]
          cases hgp : getA dbPre.chats c.id
          · rw [hgp] at hPreSome; cases hPreSome
          · rfl
        obtain ⟨hmsgs, -⟩ := sfh_spec c.name ("initial-sync-" ++ toString now)
          now c.messages _ c.id hcSet
        rw [hmsgs, setBaseline_messages]
        obtain ⟨t, htm⟩ := Option.isSome_iff_exists.mp (hts m hm)
        obtain ⟨r0, hrow0⟩ := rowOfHistory_some_of c.id
          ("initial-sync-" ++ toString now) now m i t hmi htm
        exact histFold_from c.id ("initial-sync-" ++ toString now) now
          c.messages _ m i r0 hm hrow0
    · intro o ho
      cases hg : c.messages.getLast? with
      | none => rw [hg] at ho; cases ho
      | some oldest =>
        rw [hg] at ho
        injection ho with ho'
        rw [← ho']
        unfold newChatBranch
        rw [hg, updateSync_chats_baseline]
        have hcSet : (getA (DB.setChatHistoryBaseline dbPre c.id
            (getMessageTimestamp oldest now)).chats c.id).isSome = true := by
          rw [setBaseline_chats_self]
          cases hgp : getA dbPre.chats c.id
          · rw [hgp] at hPreSome; cases hPreSome
          · rfl
        obtain ⟨-, hchats⟩ := sfh_spec c.name ("initial-sync-" ++ toString now)
          now c.messages _ c.id hcSet
        obtain ⟨hbl, -⟩ := hchats c.id
        rw [hbl, setBaseline_chats_self]
        obtain ⟨r0, hgp⟩ := Option.isSome_iff_exists.mp hPreSome
        rw [hgp]
        rfl
  · -- KNOWN conversation
    intro infoRow hinfo hbase i
    have hinfo' : getA db.chats c.id = some infoRow := hinfo
    have hnotnew : isNewChatPred db c.id = false := by
      unfold isNewChatPred
      rw [hinfo]
      simp [hbase]
    rw [hnotnew]
    simp only [Bool.false_eq_true, if_false]
    have hex : (getA db.chats c.id).isSome = true := by rw [hinfo']; rfl
    rw [hex] at hpreMsgs
    simp only [if_true] at hpreMsgs
    rw [updateSync_messages]
    simp only [hinfo, knownChatBranch]
    by_cases hne : (c.messages.filter (fun m =>
        tsGt (getMessageTimestamp m now)
          (jsOrI infoRow.lastSyncTimestamp infoRow.historyBaselineTimestamp)))
      = []
    · rw [hne]
      simp only [ne_eq, not_true_eq_false, if_false]
      constructor
      · rintro ⟨row, hrow, hcid⟩
        rw [hpreMsgs] at hrow
        have := getA_filter_pred _ _ _ _ hrow
        rw [hcid] at this
        simp at this
      · rintro ⟨m, hm, hmi, hgt⟩
        have : m ∈ (c.messages.filter (fun m =>
            tsGt (getMessageTimestamp m now)
              (jsOrI infoRow.lastSyncTimestamp
                infoRow.historyBaselineTimestamp))) :=
          List.mem_filter.mpr ⟨hm, hgt⟩
        rw [hne] at this
        cases this
    · rw [if_pos hne]
      obtain ⟨hmsgs, -⟩ := sfh_spec c.name ("progressive-sync-" ++ toString now)
        now _ dbPre c.id hPreSome
      rw [hmsgs, hpreMsgs]
      constructor
      · rintro ⟨row, hrow, hcid⟩
        rcases histFold_src c.id ("progressive-sync-" ++ toString now) now
            _ _ i row hrow with h1 | ⟨m, hmF, hrowm⟩
        · have := getA_filter_pred _ _ _ _ h1
          rw [hcid] at this
          simp at this
        · obtain ⟨hmi, -, -⟩ := rowOfHistory_props _ _ _ _ _ _ hrowm
          obtain ⟨hm, hgt⟩ := List.mem_filter.mp hmF
          exact ⟨m, hm, hmi, hgt⟩
      · rintro ⟨m, hm, hmi, hgt⟩
        have hmF : m ∈ (c.messages.filter (fun m =>
            tsGt (getMessageTimestamp m now)
              (jsOrI infoRow.lastSyncTimestamp
                infoRow.historyBaselineTimestamp))) :=
          List.mem_filter.mpr ⟨hm, hgt⟩
        cases hts2 : getMessageTimestamp m now with
        | none => rw [hts2] at hgt; cases hgt
        | some t =>
          obtain ⟨r0, hrow0⟩ := rowOfHistory_some_of c.id
            ("progressive-sync-" ++ toString now) now m i t hmi hts2
          obtain ⟨row, hget, hcid, -⟩ := histFold_from c.id
            ("progressive-sync-" ++ toString now) now _ _ m i r0 hmF hrow0
          exact ⟨row, hget, hcid⟩

/-- An engine fault on the message id makes `saveMessage` reject before any
mutation. -/
theorem saveMessage_fault (env : Env) (db : DB) (id cj : String) (f : Bool)
    (ct : String) (ts : Option Int) (mt st : String) (sn cs : Option String)
    (hf : env.msgFault id = true) :
    DB.saveMessage env db id cj f ct ts mt st sn cs = none := by
  unfold DB.saveMessage
  rw [hf]
  simp

/-- **C4** — the claim FAILS on the code: the `messages` table's primary key
is the message id ALONE (`id TEXT PRIMARY KEY`, `database.js:73`), so
persisting two messages that share id `s1` but belong to conversations `A`
and `B` leaves a SINGLE stored row, the second write having overwritten the
first (the surviving row belongs to `B`). -/
theorem saveMessage_shared_id_overwrites :
    ((DB.saveMessage noFaults fxDb4 "s1" "A" false "one" (some 100000)).bind
      fun d1 => DB.saveMessage noFaults d1 "s1" "B" false "two" (some 200000)).map
      (fun d2 => (d2.messages.length, (getA d2.messages "s1").map (·.chatJid),
        (getA d2.messages "s1").map (·.content)))
    = some (1, some "B", some "two") := by rfl

/-- **C4** (amended): message storage is keyed by the message id alone:
after two successful `saveMessage` calls that share an id but name
different conversations, exactly one row is stored under that id and it
belongs to the second conversation — the second write overwrote the
first. -/
theorem saveMessage_keyed_by_id_alone (env : Env) (db db1 db2 : DB)
    (id c1 c2 : String) (f1 f2 : Bool) (ct1 ct2 : String)
    (ts1 ts2 : Option Int) (mt1 mt2 st1 st2 : String)
    (sn1 sn2 cs1 cs2 : Option String)
    (h1 : DB.saveMessage env db id c1 f1 ct1 ts1 mt1 st1 sn1 cs1 = some db1)
    (h2 : DB.saveMessage env db1 id c2 f2 ct2 ts2 mt2 st2 sn2 cs2 = some db2) :
    (getA db2.messages id).map (·.chatJid) = some c2
    ∧ db2.messages.countP (fun p => p.1 == id) = 1 := by
  obtain ⟨t2, -, hmsgs2, -⟩ := saveMessage_inv _ _ _ _ _ _ _ _ _ _ _ _ h2
  rw [hmsgs2]
  exact ⟨by rw [getA_putA_self]; rfl, countP_putA _ _ _⟩

/-- Closed witness for the amended C4 theorem at the concrete two-write
scenario. -/
theorem saveMessage_keyed_by_id_alone_witness :
    (getA fxDb4b.messages "s1").map (·.chatJid) = some "B"
    ∧ fxDb4b.messages.countP (fun p => p.1 == "s1") = 1 :=
  saveMessage_keyed_by_id_alone noFaults fxDb4 fxDb4a fxDb4b "s1" "A" "B"
    false false "one" "two" (some 100000) (some 200000) "text" "text"
    "sent" "sent" none none none none rfl rfl

/-- **C6** — failure isolation inside one bulk delivery.
(1) Per-message: a message whose persistence the engine rejects is skipped
and counted (`skippedMessageCount`), and the remaining messages of the
conversation produce exactly the same saves and counts as if the bad
message had not been delivered.
(2) Per-conversation: a conversation whose processing throws (modelled at
its first store access, `getChatHistoryInfo`) contributes nothing, and the
delivery's outcome equals that of the same delivery without it — sibling
conversations are still processed and persisted. -/
theorem historySet_failure_isolation :
    (∀ (env : Env) (db : DB) (cid : String) (cname : Option String)
       (l1 l2 : List RawMsg) (m : RawMsg) (session : String) (now : Int)
       (i : String), msgId m = some i → env.msgFault i = true →
       saveMessagesFromHistory env db cid cname (l1 ++ m :: l2) session now =
         ((saveMessagesFromHistory env db cid cname (l1 ++ l2) session now).1,
          (saveMessagesFromHistory env db cid cname (l1 ++ l2) session now).2.1 + 1,
          (saveMessagesFromHistory env db cid cname (l1 ++ l2) session now).2.2))
    ∧ (∀ (env : Env) (db : DB) (l1 l2 : List HChat) (c : HChat) (fl w ko : Bool)
       (now : Int), env.chatFault c.id = true →
       handleHistorySet env db ⟨l1 ++ c :: l2, fl⟩ now w ko =
         handleHistorySet env db ⟨l1 ++ l2, fl⟩ now w ko) := by
  constructor
  · intro env db cid cname l1 l2 m session now i hmi hf
    induction l1 generalizing db with
    | nil =>
      simp only [List.nil_append, saveMessagesFromHistory, hmi,
        saveMessage_fault env db i cid _ _ _ _ _ _ _ hf]
    | cons a l1 ih =>
      cases hma : msgId a with
      | none =>
        simp only [List.cons_append, List.append_eq, saveMessagesFromHistory, hma, ih]
      | some j =>
        cases hsv : DB.saveMessage env db j cid
            ((getMessageKey a).elim false (·.fromMe))
            (if getDisplayMessage a ≠ "" then getDisplayMessage a
              else "[Message content unavailable]")
            (getMessageTimestamp a now) (getMessageType a)
            (if (getMessageKey a).elim false (·.fromMe) then "sent"
              else "received")
            (jsOrS a.pushName (jsOrS a.participant (jsOrS cname (some "Unknown"))))
            (some session) with
        | none =>
          simp only [List.cons_append, List.append_eq, saveMessagesFromHistory, hma, hsv, ih]
        | some db' =>
          simp only [List.cons_append, List.append_eq, saveMessagesFromHistory, hma, hsv, ih]
  · intro env db l1 l2 c fl w ko now hcf
    have hskip : ∀ dbx : DB, processHistoryChat env dbx c now = (dbx, none) := by
      intro dbx
      unfold processHistoryChat
      rw [hcf]
      simp
    have hrun : ∀ (l : List HChat) (dbx : DB),
        runHistoryChats env dbx (l ++ c :: l2) now =
          runHistoryChats env dbx (l ++ l2) now := by
      intro l
      induction l with
      | nil =>
        intro dbx
        simp [runHistoryChats, hskip]
      | cons a l ih =>
        intro dbx
        simp only [List.cons_append, runHistoryChats, List.append_eq]
        rw [ih]
    unfold handleHistorySet
    rw [hrun l1 db]

/-- Closed witness for C6 at a concrete faulting run: the engine rejects
message `bad` between `m2` and `m1`, and conversation `C` throws between
processing of conversation `A`. -/
theorem historySet_failure_isolation_witness :
    (saveMessagesFromHistory fxFaultEnv DB.empty "A" none
        ([fxM2] ++ fxBadMsg :: [fxM1]) "s" 1000000 =
      ((saveMessagesFromHistory fxFaultEnv DB.empty "A" none
          ([fxM2] ++ [fxM1]) "s" 1000000).1,
       (saveMessagesFromHistory fxFaultEnv DB.empty "A" none
          ([fxM2] ++ [fxM1]) "s" 1000000).2.1 + 1,
       (saveMessagesFromHistory fxFaultEnv DB.empty "A" none
          ([fxM2] ++ [fxM1]) "s" 1000000).2.2))
    ∧ handleHistorySet fxFaultEnv DB.empty ⟨[fxChatDesc] ++ fxChatC :: [], true⟩
          1000000 false true =
        handleHistorySet fxFaultEnv DB.empty ⟨[fxChatDesc] ++ [], true⟩
          1000000 false true :=
  ⟨historySet_failure_isolation.1 fxFaultEnv DB.empty "A" none [fxM2] [fxM1]
      fxBadMsg "s" 1000000 "bad" rfl rfl,
   historySet_failure_isolation.2 fxFaultEnv DB.empty [fxChatDesc] []
      fxChatC true false true 1000000 rfl⟩

/-- **C1** — the claim as stated FAILS on the code in its baseline clause:
for a new conversation the baseline cursor is NOT the minimum timestamp
over the delivered messages.  Delivering `[m1 (100s), m2 (200s)]` in
ascending order makes the code take the LAST array element `m2`, so the
baseline becomes 200000 although the minimum delivered timestamp is
100000. -/
theorem historySet_baseline_not_min :
    (getA (handleHistorySet noFaults DB.empty fxItemAsc 1000000).db.chats "A").map
        (·.historyBaselineTimestamp) = some (some 200000)
    ∧ getMessageTimestamp fxM1 1000000 = some 100000
    ∧ getMessageTimestamp fxM2 1000000 = some 200000
    ∧ ¬ (200000 : Int) ≤ 100000 := by
  refine ⟨rfl, rfl, rfl, by decide⟩

/-- Closed witness for the amended C1 theorem: the first delivery of
conversation `A` (a new conversation) persists message `m2` under the
initial-sync session. -/
theorem historySet_classification_witness :
    ∃ row, getA (handleHistorySet noFaults DB.empty ⟨[fxChatDesc], true⟩
          1000000).db.messages "m2"
        = some row ∧ row.chatJid = fxChatDesc.id
      ∧ row.collectionSession = some ("initial-sync-" ++ toString (1000000 : Int)) :=
  ((historySet_classification DB.empty fxChatDesc true false true 1000000
      (by decide) (by decide) (by decide)).1 (by decide)).1 fxM2 (by decide)
    "m2" (by decide)

/-! ## Timestamp normalization (C8) -/

theorem jsParseInt_go_digits :
    ∀ (cs : List Char) (a : Nat), (∀ c ∈ cs, c.isDigit = true) →
    jsParseInt.go cs (some a)
      = some (cs.foldl (fun n c => n * 10 + (c.toNat - 48)) a) := by
  intro cs
  induction cs with
  | nil => intro a h; rfl
  | cons c cs ih =>
    intro a h
    have hc : c.isDigit = true := h c (List.mem_cons_self _ _)
    simp only [jsParseInt.go, hc, if_true, Option.getD_some, List.foldl_cons]
    exact ih _ (fun c hcm => h c (List.mem_cons_of_mem _ hcm))

/-- On a digit string, JS `parseInt` agrees with the reference decimal
interpretation `String.toNat?`. -/
theorem jsParseInt_eq_toNat? (s : String) (v : Nat) (h : s.toNat? = some v) :
    jsParseInt s = some (Int.ofNat v) := by
  unfold String.toNat? at h
  split at h
  case isTrue hnat =>
    injection h with hv
    have hconj := hnat
    unfold String.isNat at hconj
    rw [Bool.and_eq_true] at hconj
    obtain ⟨hne, hall⟩ := hconj
    have hnn : s ≠ "" := by
      intro he
      rw [he] at hne
      cases hne
    have hdig : ∀ c ∈ s.data, c.isDigit = true := by
      intro c hcm
      exact (String.all_iff s (·.isDigit)).mp hall c hcm
    have hdata : s.data ≠ [] := by
      intro he
      apply hnn
      cases s with
      | mk data =>
        simp only at he
        subst he
        rfl
    cases hd : s.data with
    | nil => exact absurd hd hdata
    | cons c cs =>
      have hc : c.isDigit = true := by
        apply hdig; rw [hd]; exact List.mem_cons_self _ _
      have hcs : ∀ x ∈ cs, x.isDigit = true := by
        intro x hx
        apply hdig; rw [hd]; exact List.mem_cons_of_mem _ hx
      unfold jsParseInt
      rw [hd]
      simp only [jsParseInt.go, hc, if_true, Option.getD_none]
      rw [jsParseInt_go_digits cs (0 * 10 + (c.toNat - 48)) hcs]
      rw [← hv, String.foldl_eq, hd]
      simp only [List.foldl_cons, Option.map_some']
      rfl
  case isFalse => cases h

/-- **C8**: `getMessageTimestamp` maps each of the three upstream formats to
the reference epoch-milliseconds value: a (nonzero) epoch-seconds number `n`
to `n * 1000`; a numeric string `s` to `(decimal value of s) * 1000`; a
split-word object `{low, high}` (words in unsigned 32-bit range) to
`(high * 2^32 + low) * 1000`. -/
theorem getMessageTimestamp_normalization :
    (∀ (n now : Int), n ≠ 0 →
      getMessageTimestamp (fxTsMsg (.num n)) now = some (n * 1000))
    ∧ (∀ (s : String) (v : Nat) (now : Int), s.toNat? = some v →
      getMessageTimestamp (fxTsMsg (.str s)) now = some ((v : Int) * 1000))
    ∧ (∀ (low high now : Int), 0 ≤ low → low < 4294967296 →
      0 ≤ high → high < 4294967296 →
      getMessageTimestamp (fxTsMsg (.long low high)) now
        = some ((high * 4294967296 + low) * 1000)) := by
  refine ⟨?_, ?_, ?_⟩
  · intro n now h
    simp [getMessageTimestamp, fxTsMsg, jsTruthyTs, h]
  · intro s v now h
    have hnn : s ≠ "" := by
      intro he
      rw [he] at h
      cases h
    simp only [getMessageTimestamp, fxTsMsg, jsTruthyTs, hnn, ne_eq,
      not_false_eq_true, not_true_eq_false, if_false]
    rw [jsParseInt_eq_toNat? s v h]
    rfl
  · intro low high now h1 h2 h3 h4
    simp only [getMessageTimestamp, fxTsMsg, jsTruthyTs, not_true_eq_false,
      if_false]
    unfold toUint32
    rw [Int.emod_eq_of_lt h1 h2, Int.emod_eq_of_lt h3 h4]

/-- Closed witness for C8 at hand-computed reference values. -/
theorem getMessageTimestamp_normalization_witness :
    getMessageTimestamp (fxTsMsg (.num 1717000000)) 5 = some 1717000000000
    ∧ getMessageTimestamp (fxTsMsg (.str "1717000000")) 5 = some 1717000000000
    ∧ getMessageTimestamp (fxTsMsg (.long 1288834974 0)) 5 = some 1288834974000 :=
  ⟨getMessageTimestamp_normalization.1 1717000000 5 (by decide),
   getMessageTimestamp_normalization.2.1 "1717000000" 1717000000 5 (by
     unfold String.toNat?
     rw [if_pos (by unfold String.isNat; rw [String.all_eq]; decide),
       String.foldl_eq]
     decide),
   getMessageTimestamp_normalization.2.2 1288834974 0 5 (by decide) (by decide)
     (by decide) (by decide)⟩

/-! ## The Live Event Processor (C9) and the command dispatcher (C10) -/

/-- **C9** — the claim FAILS on the code in its message-kind clause: an
inbound live image message is persisted with `message_type = "text"`
(`handleMessagesUpsert` passes the literal `'text'` to
`database.saveMessage`), although the detected kind of the message is
`"image"`; only the outward notification carries the detected kind. -/
theorem messagesUpsert_kind_counterexample :
    (getA (handleMessagesUpsert noFaults fxDb9 fxUpsert9).1.messages "x9").map
        (·.messageType) = some "text"
    ∧ getMessageType fxImgMsg = "image"
    ∧ ("text" : String) ≠ "image" := by
  refine ⟨rfl, rfl, by decide⟩

/-- **C9** (amended): for an inbound `notify` live event whose first message
is inbound, has a key, displayable content, a numeric timestamp and an
existing conversation row, the handler persists the message with its
normalized timestamp, content, a `"real-time"` provenance tag and the kind
recorded as `"text"`; it rewrites the existing conversation row's summary
columns; and it emits one `newMessage` envelope carrying the DETECTED kind,
the sender name taken from the event (`pushName || notify`), and the avatar
read from the Contact table after the save. -/
theorem messagesUpsert_amended (db : DB) (m : UpsertEvent) (msg : RawMsg)
    (k : MsgKey) (jid mid : String) (ts : Int)
    (hhead : m.messages.head? = some msg)
    (hkey : msg.key = some k)
    (hfm : k.fromMe = false)
    (hjid : k.remoteJid = some jid)
    (hmid : k.id = some mid)
    (hnotify : m.mtype = "notify")
    (hcontent : getDisplayMessage msg ≠ "")
    (hts : jsTsTimes1000 msg.messageTimestamp = some ts)
    (hchat : (getA db.chats jid).isSome = true) :
    ∃ db', handleMessagesUpsert noFaults db m true =
      (db', [⟨"newMessage", .newMsg mid (getDisplayMessage msg) (some ts)
        (getMessageType msg) jid false jid (jsOrS msg.pushName msg.notify)
        ((DB.getContact db' jid).bind (·.avatarBase64))
        (jsOrS msg.pushName msg.notify)⟩])
      ∧ getA db'.messages mid = some ⟨jid, false, "text",
          getDisplayMessage msg, ts, "received", some "real-time"⟩
      ∧ (getA db'.chats jid).map (·.lastMessageId) = some (some mid)
      ∧ (getA db'.chats jid).map (·.lastMessageTimestamp) = some (some ts)
      ∧ (getA db'.chats jid).map (·.lastMessageType) = some "text"
      ∧ (getA db'.chats jid).map (·.lastMessageFrom) = some (some jid) := by
  obtain ⟨db', hdb'⟩ := saveMessage_some noFaults db mid jid false
    (getDisplayMessage msg) ts "text" "received" (jsOrS msg.pushName msg.notify)
    (some "real-time") rfl hchat
  refine ⟨db', ?_, ?_, ?_⟩
  · simp only [handleMessagesUpsert, hhead, hkey, hfm, hnotify, hjid, hmid,
      hts, hcontent, ne_eq, not_false_eq_true, Bool.false_eq_true, not_false_iff,
      true_and, if_true, hdb']
    simp [hfm]
  · obtain ⟨t, hteq, hmsgs, -⟩ := saveMessage_inv _ _ _ _ _ _ _ _ _ _ _ _ hdb'
    injection hteq with hteq'
    subst hteq'
    rw [hmsgs, getA_putA_self]
  · obtain ⟨t, hteq, -, hchats⟩ := saveMessage_inv _ _ _ _ _ _ _ _ _ _ _ _ hdb'
    injection hteq with hteq'
    subst hteq'
    obtain ⟨r0, hr0⟩ := Option.isSome_iff_exists.mp hchat
    rw [hchats, getA_updateA_self, hr0]
    exact ⟨rfl, rfl, rfl, rfl⟩

/-- Closed witness for the amended C9 theorem at the concrete image-message
event. -/
theorem messagesUpsert_amended_witness :
    ∃ db', handleMessagesUpsert noFaults fxDb9 fxUpsert9 true =
      (db', [⟨"newMessage", .newMsg "x9" (getDisplayMessage fxImgMsg)
        (some 500000) (getMessageType fxImgMsg) "B" false "B"
        (jsOrS fxImgMsg.pushName fxImgMsg.notify)
        ((DB.getContact db' "B").bind (·.avatarBase64))
        (jsOrS fxImgMsg.pushName fxImgMsg.notify)⟩])
      ∧ getA db'.messages "x9" = some ⟨"B", false, "text",
          getDisplayMessage fxImgMsg, 500000, "received", some "real-time"⟩
      ∧ (getA db'.chats "B").map (·.lastMessageId) = some (some "x9")
      ∧ (getA db'.chats "B").map (·.lastMessageTimestamp) = some (some 500000)
      ∧ (getA db'.chats "B").map (·.lastMessageType) = some "text"
      ∧ (getA db'.chats "B").map (·.lastMessageFrom) = some (some "B") :=
  messagesUpsert_amended fxDb9 fxUpsert9 fxImgMsg ⟨some "x9", false, some "B"⟩
    "B" "x9" 500000 rfl rfl rfl rfl rfl rfl (by decide) rfl rfl

/-- **C10**: an unrecognized consumer command type reaches the dispatcher's
`default` branch, which (with the consumer connected) sends exactly one
`error` envelope with `type: "unknown_command"` naming the offending
command, changes no state (in particular the consumer socket stays as it
was), and cannot throw (the handler is a total function); consequently any
subsequent command is handled exactly as it would have been before. -/
theorem unknown_command_handled (env : Env) (st : GState) (data : CmdData)
    (now : Int) (t : String)
    (hopen : st.clientOpen = true)
    (hunk : t ∉ recognizedCommands) :
    handleFrontendCommand env st t data now =
      (st, [.send ⟨"error",
        .errorData "unknown_command" ("Unknown command: " ++ t)⟩])
    ∧ ∀ (t' : String) (d' : CmdData) (n' : Int),
        handleFrontendCommand env
            (handleFrontendCommand env st t data now).1 t' d' n'
          = handleFrontendCommand env st t' d' n' := by
  have h := hunk
  simp only [recognizedCommands, List.mem_cons, List.not_mem_nil, or_false,
    not_or] at h
  obtain ⟨h1, h2, h3, h4, h5, h6, h7, h8⟩ := h
  have hmain : handleFrontendCommand env st t data now =
      (st, [.send ⟨"error",
        .errorData "unknown_command" ("Unknown command: " ++ t)⟩]) := by
    unfold handleFrontendCommand
    rw [if_neg h1, if_neg h2, if_neg h3, if_neg h4, if_neg h5, if_neg h6,
      if_neg h7, if_neg h8]
    simp [emit, hopen]
  exact ⟨hmain, fun t' d' n' => by rw [hmain]⟩

/-- Closed witness for C10: the command `bogus` on a connected state, with
a subsequent `health_check` still dispatched identically. -/
theorem unknown_command_handled_witness :
    handleFrontendCommand noFaults fxState10 "bogus" fxCmdData 0 =
      (fxState10, [.send ⟨"error",
        .errorData "unknown_command" "Unknown command: bogus"⟩])
    ∧ handleFrontendCommand noFaults
          (handleFrontendCommand noFaults fxState10 "bogus" fxCmdData 0).1
          "health_check" fxCmdData 0
        = handleFrontendCommand noFaults fxState10 "health_check" fxCmdData 0 :=
  ⟨(unknown_command_handled noFaults fxState10 fxCmdData 0 "bogus" rfl
      (by decide)).1,
   (unknown_command_handled noFaults fxState10 fxCmdData 0 "bogus" rfl
      (by decide)).2 "health_check" fxCmdData 0⟩

/-- **C8** — the claim as universally stated fails at the falsy value 0: the
epoch-seconds number `0` does not map to `0 * 1000`; the `if (!timestamp)`
truthiness guard makes `getMessageTimestamp` fall back to `Date.now()`
(777 here) instead. -/
theorem getMessageTimestamp_zero_counterexample :
    getMessageTimestamp (fxTsMsg (.num 0)) 777 = some 777
    ∧ (some 777 : Option Int) ≠ some (0 * 1000) := by
  exact ⟨rfl, by decide⟩

end Karere
